import Mathlib

/-!
Shallow embedding of the toolbar overflow-fitter of `src/poc1.tsx`.

Modelling conventions:
* JS numbers (widths, coordinates) are modelled as rationals `ℚ`;
  `MAX_OPTIONS_TO_DISPLAY` is an integer configuration value `ℤ`
  (the spec calls it a positive-integer configuration).
* A JS array index access `a[i]` that may fall outside the array is
  modelled with `List.getElem?`; the JS comparison `undefined >= x`
  is `false`, which the `coord_ge` helper encodes.
* React refs holding DOM elements are modelled as `Option` values:
  `none` is an unbound ref (`ref.current` null), `some` carries the
  measured data the code reads from the element.
* The component state read and written by the handlers is a record
  `FitterState` holding the offset cache
  (`toolbar_options_x_coordinates_ref.current`) and the published
  visible subset (`options_to_be_visible`).
-/

/-- One toolbar entry (`BulkActionOptionProps`).  `children` models the
truthiness of the nested-children field tested by `!option.children`. -/
structure BulkActionOption where
  label : String
  children : Bool
deriving DecidableEq

/-- Mutable component state: the cached x-coordinate list
(`toolbar_options_x_coordinates_ref.current`) and the published visible
subset (`options_to_be_visible`). -/
structure FitterState where
  coords : List ℚ
  visible : List BulkActionOption
deriving DecidableEq

/-- A measured bounding rectangle, as returned by
`getBoundingClientRect()`: the fields the code reads. -/
structure Rect where
  x : ℚ
  width : ℚ
deriving DecidableEq

/-- `coords[index] >= bound` with JS semantics: an out-of-range access
yields `undefined`, and `undefined >= bound` is `false`. -/
def coord_ge (coords : List ℚ) (index : ℕ) (bound : ℚ) : Bool :=
  match coords[index]? with
  | some c => decide (bound ≤ c)
  | none => false

/-- `is_child_reached` (src/poc1.tsx lines 11-22): `options.some((option,
index) => ...)`, skipping options without children and otherwise testing
`coords[index] >= wrapper_width - MIN_GAP_BETWEEN_SCREEN_AND_LAST_ICON`. -/
def is_child_reached (MIN_GAP_BETWEEN_SCREEN_AND_LAST_ICON : ℚ)
    (options : List BulkActionOption) (coords : List ℚ)
    (wrapper_width : ℚ) : Bool :=
  options.enum.any fun p =>
    if !p.2.children then false
    else coord_ge coords p.1
      (wrapper_width - MIN_GAP_BETWEEN_SCREEN_AND_LAST_ICON)

/-- The `for` loop of `update_display_options_on_window_resize`
(src/poc1.tsx lines 55-59): starting at `index`, while
`index < display_options_count`, break when `index >=
MAX_OPTIONS_TO_DISPLAY || index >= options.length`, otherwise push a
copy `{...options[index]}`. -/
def select_loop (MAX_OPTIONS_TO_DISPLAY : ℤ)
    (options : List BulkActionOption)
    (display_options_count index : ℕ) : List BulkActionOption :=
  if _h : index < display_options_count then
    if MAX_OPTIONS_TO_DISPLAY ≤ (index : ℤ) ∨ options.length ≤ index then
      []
    else
      match options[index]? with
      | some option =>
          ⟨option.label, option.children⟩ ::
            select_loop MAX_OPTIONS_TO_DISPLAY options
              display_options_count (index + 1)
      | none => []
  else []
termination_by display_options_count - index
decreasing_by omega

/-- Body of `update_display_options_on_window_resize` after the wrapper
width has been resolved (src/poc1.tsx lines 43-61): early-exit when
`is_child_reached`, otherwise count the cached coordinates that fit and
publish the selected prefix via `set_options_to_be_visible`. -/
def update_with_width (MIN_GAP_BETWEEN_SCREEN_AND_LAST_ICON : ℚ)
    (MAX_OPTIONS_TO_DISPLAY : ℤ) (options : List BulkActionOption)
    (wrapper_width : ℚ) (st : FitterState) : FitterState :=
  if is_child_reached MIN_GAP_BETWEEN_SCREEN_AND_LAST_ICON options
      st.coords wrapper_width then
    st
  else
    let display_options_count :=
      (st.coords.filter fun x_end_point =>
        x_end_point ≤
          wrapper_width - MIN_GAP_BETWEEN_SCREEN_AND_LAST_ICON).length
    let selected_options :=
      select_loop MAX_OPTIONS_TO_DISPLAY options display_options_count 0
    { st with visible := selected_options }

/-- Width resolution of src/poc1.tsx lines 37-41: `wrapper_width =
window.innerWidth`, overwritten with `wrapper_ref.current.clientWidth`
when the wrapper ref is bound. -/
def resolve_wrapper_width (window_innerWidth : ℚ)
    (wrapper_ref : Option ℚ) : ℚ :=
  match wrapper_ref with
  | some clientWidth => clientWidth
  | none => window_innerWidth

/-- `update_display_options_on_window_resize` (src/poc1.tsx lines
34-62): resolve the wrapper width, then run the fit pass. -/
def update_display_options_on_window_resize
    (MIN_GAP_BETWEEN_SCREEN_AND_LAST_ICON : ℚ)
    (MAX_OPTIONS_TO_DISPLAY : ℤ) (options : List BulkActionOption)
    (window_innerWidth : ℚ) (wrapper_ref : Option ℚ)
    (st : FitterState) : FitterState :=
  update_with_width MIN_GAP_BETWEEN_SCREEN_AND_LAST_ICON
    MAX_OPTIONS_TO_DISPLAY options
    (resolve_wrapper_width window_innerWidth wrapper_ref) st

/-- The `client_rects_end_point` computation of the layout effect
(src/poc1.tsx lines 77-88): `first_x` starts at 0 and is set to the
first element's `x` before any offset is produced, so every element maps
to `x + width - first_x + MIN_GAP`; a missing container (`none`) yields
`[]` via the `?? []` fallback. -/
def client_rects_end_point (MIN_GAP_BETWEEN_SCREEN_AND_LAST_ICON : ℚ)
    (option_elements : Option (List Rect)) : List ℚ :=
  match option_elements with
  | none => []
  | some elems =>
    let first_x : ℚ :=
      match elems.head? with
      | some rect => rect.x
      | none => 0
    elems.map fun rect =>
      rect.x + rect.width - first_x + MIN_GAP_BETWEEN_SCREEN_AND_LAST_ICON

/-- The layout effect (src/poc1.tsx lines 72-94): compute
`client_rects_end_point` from the rendered children and store it into
the coordinate cache only when the cache is currently empty. -/
def capture_offsets (MIN_GAP_BETWEEN_SCREEN_AND_LAST_ICON : ℚ)
    (toolbar_options_ref : Option (List Rect))
    (st : FitterState) : FitterState :=
  let endpoints :=
    client_rects_end_point MIN_GAP_BETWEEN_SCREEN_AND_LAST_ICON
      toolbar_options_ref
  if st.coords.length = 0 then { st with coords := endpoints }
  else st

/-- Severity of a console diagnostic. -/
inductive LogLevel where
  | error : LogLevel
  | warn : LogLevel
deriving DecidableEq

/-- One console diagnostic line. -/
structure LogEntry where
  level : LogLevel
  message : String
deriving DecidableEq

/-- The value held by `toolbar_options_x_coordinates_ref.current`, which
the validation pass type-checks with `Array.isArray`: either a proper
array of coordinates or some non-array value. -/
inductive CoordsCell where
  | array : List ℚ → CoordsCell
  | notArray : CoordsCell
deriving DecidableEq

/-- The final validation pass (src/poc1.tsx lines 116-145): coerce a
non-array coordinate cache to `[]` with an error, warn on non-positive
`MAX_OPTIONS_TO_DISPLAY`, error on a missing/empty `options` array, warn
on unbound `wrapper_ref` / `toolbar_options_ref`.  Returns the emitted
diagnostics and the (possibly coerced) coordinate cache. -/
def run_validations (cell : CoordsCell) (MAX_OPTIONS_TO_DISPLAY : ℤ)
    (options : List BulkActionOption) (wrapper_ref : Option ℚ)
    (toolbar_options_ref : Option (List Rect)) :
    List LogEntry × List ℚ :=
  let coerced : List LogEntry × List ℚ :=
    match cell with
    | CoordsCell.array coords => ([], coords)
    | CoordsCell.notArray =>
        ([⟨LogLevel.error,
          "Error: toolbar_options_x_coordinates_ref.current is not initialized as an array."⟩],
         [])
  let max_logs : List LogEntry :=
    if MAX_OPTIONS_TO_DISPLAY ≤ 0 then
      [⟨LogLevel.warn,
        "Warning: MAX_OPTIONS_TO_DISPLAY should be greater than 0."⟩]
    else []
  let options_logs : List LogEntry :=
    if options.isEmpty then
      [⟨LogLevel.error,
        "Error: The options array is either not initialized or empty."⟩]
    else []
  let wrapper_logs : List LogEntry :=
    match wrapper_ref with
    | none => [⟨LogLevel.warn,
        "Warning: wrapper_ref is not assigned to any DOM element."⟩]
    | some _ => []
  let toolbar_logs : List LogEntry :=
    match toolbar_options_ref with
    | none => [⟨LogLevel.warn,
        "Warning: toolbar_options_ref is not assigned to any DOM element."⟩]
    | some _ => []
  (coerced.1 ++ max_logs ++ options_logs ++ wrapper_logs ++ toolbar_logs,
   coerced.2)

/-- A full fit pass: the validation pass runs over the component body
first (coercing the coordinate cache), then the resize handler computes
against the validated cache. -/
def fit_pass (MIN_GAP_BETWEEN_SCREEN_AND_LAST_ICON : ℚ)
    (MAX_OPTIONS_TO_DISPLAY : ℤ) (options : List BulkActionOption)
    (cell : CoordsCell) (prev_visible : List BulkActionOption)
    (window_innerWidth : ℚ) (wrapper_ref : Option ℚ)
    (toolbar_options_ref : Option (List Rect)) :
    List LogEntry × FitterState :=
  let validated :=
    run_validations cell MAX_OPTIONS_TO_DISPLAY options wrapper_ref
      toolbar_options_ref
  (validated.1,
   update_display_options_on_window_resize
     MIN_GAP_BETWEEN_SCREEN_AND_LAST_ICON MAX_OPTIONS_TO_DISPLAY options
     window_innerWidth wrapper_ref
     { coords := validated.2, visible := prev_visible })

/-- Characterisation of the selection loop: starting at `index` it
collects exactly the slice of `options` up to
`min display_options_count (min MAX.toNat options.length)`. -/
theorem select_loop_eq (MAX : ℤ) (options : List BulkActionOption)
    (count index : ℕ) :
    select_loop MAX options count index =
      (options.drop index).take
        (min count (min MAX.toNat options.length) - index) := by
  rw [select_loop]
  split
  · split
    · rename_i hbreak
      have h0 : min count (min MAX.toNat options.length) - index = 0 := by
        rcases hbreak with h | h
        · have := Int.toNat_le.mpr h
          omega
        · omega
      rw [h0, List.take_zero]
    · rename_i hlt hkeep
      push_neg at hkeep
      obtain ⟨hmax, hlen⟩ := hkeep
      have hidx : options[index]? = some options[index] :=
        List.getElem?_eq_getElem hlen
      rw [hidx]
      have hrec := select_loop_eq MAX options count (index + 1)
      rw [hrec]
      have hdrop : options.drop index =
          options[index] :: options.drop (index + 1) :=
        List.drop_eq_getElem_cons hlen
      rw [hdrop]
      have hk : min count (min MAX.toNat options.length) - index =
          (min count (min MAX.toNat options.length) - (index + 1)) + 1 := by
        omega
      rw [hk, List.take_succ_cons]
  · rename_i hge
    have h0 : min count (min MAX.toNat options.length) - index = 0 := by
      omega
    rw [h0, List.take_zero]
termination_by count - index
decreasing_by omega

/-- Claim C1: for every options sequence, cached offset sequence and
availableWidth >= 0 such that no child-bearing option overflows, the fit
pass publishes a subset that is a prefix of the options in original
order, of length min(MAX_OPTIONS_TO_DISPLAY, number of options, count of
cached offsets <= availableWidth - MIN_GAP).  The configured maximum is
assumed non-negative, as the spec requires a positive-integer
configuration. -/
theorem update_visible_fitting_prefix_spec
    (MIN_GAP : ℚ) (MAX : ℤ) (options : List BulkActionOption)
    (availableWidth : ℚ) (st : FitterState)
    (hw : 0 ≤ availableWidth) (hmax : 0 ≤ MAX)
    (hchild : is_child_reached MIN_GAP options st.coords availableWidth
      = false) :
    (update_with_width MIN_GAP MAX options availableWidth st).visible <+:
      options ∧
    (((update_with_width MIN_GAP MAX options availableWidth st).visible.length
        : ℤ) =
      min MAX (min (options.length : ℤ)
        ((st.coords.filter fun x =>
          x ≤ availableWidth - MIN_GAP).length : ℤ))) := by
  unfold update_with_width
  rw [hchild]
  simp only [Bool.false_eq_true, if_false]
  rw [select_loop_eq, List.drop_zero, Nat.sub_zero]
  constructor
  · exact List.take_prefix _ _
  · rw [List.length_take]
    omega

/-- Claim C2: if some child-bearing option has a cached offset >=
resolved width - MIN_GAP, the resize handler returns early and the whole
previous state (published subset included) is retained unchanged. -/
theorem child_overflow_retains_previous_state
    (MIN_GAP : ℚ) (MAX : ℤ) (options : List BulkActionOption)
    (window_innerWidth : ℚ) (wrapper_ref : Option ℚ) (st : FitterState)
    (h : is_child_reached MIN_GAP options st.coords
      (resolve_wrapper_width window_innerWidth wrapper_ref) = true) :
    update_display_options_on_window_resize MIN_GAP MAX options
      window_innerWidth wrapper_ref st = st := by
  unfold update_display_options_on_window_resize update_with_width
  rw [h]
  simp

/-- Claim C9: the resize handler computes against the wrapper element
client width when the wrapper ref is bound, and falls back to the window
inner width when it is not. -/
theorem resize_width_source (MIN_GAP : ℚ) (MAX : ℤ)
    (options : List BulkActionOption)
    (window_innerWidth clientWidth : ℚ) (st : FitterState) :
    update_display_options_on_window_resize MIN_GAP MAX options
        window_innerWidth (some clientWidth) st =
      update_with_width MIN_GAP MAX options clientWidth st ∧
    update_display_options_on_window_resize MIN_GAP MAX options
        window_innerWidth none st =
      update_with_width MIN_GAP MAX options window_innerWidth st :=
  ⟨rfl, rfl⟩

/-- Claim C10: with an empty options sequence the child-overflow guard
is false for every width, so every fit pass publishes the empty prefix
(rather than retaining the previous published subset) and leaves the
coordinate cache untouched. -/
theorem empty_options_publishes_empty
    (MIN_GAP : ℚ) (coords : List ℚ) (candidateWidth : ℚ) (MAX : ℤ)
    (window_innerWidth : ℚ) (wrapper_ref : Option ℚ) (st : FitterState) :
    is_child_reached MIN_GAP [] coords candidateWidth = false ∧
    (update_display_options_on_window_resize MIN_GAP MAX []
      window_innerWidth wrapper_ref st).visible = [] ∧
    (update_display_options_on_window_resize MIN_GAP MAX []
      window_innerWidth wrapper_ref st).coords = st.coords := by
  refine ⟨rfl, ?_, ?_⟩
  · unfold update_display_options_on_window_resize update_with_width
    simp only [is_child_reached, List.enum_nil, List.any_nil,
      Bool.false_eq_true, if_false]
    rw [select_loop_eq]
    simp
  · unfold update_display_options_on_window_resize update_with_width
    simp [is_child_reached]

/-- Claim C3: `is_child_reached` returns true iff some option whose
children marker is present has a cached offset at the same index that is
>= candidateWidth - MIN_GAP; options without children never
contribute. -/
theorem is_child_reached_iff (MIN_GAP candidateWidth : ℚ)
    (options : List BulkActionOption) (coords : List ℚ) :
    is_child_reached MIN_GAP options coords candidateWidth = true ↔
      ∃ (index : ℕ) (o : BulkActionOption),
        options[index]? = some o ∧ o.children = true ∧
        ∃ c : ℚ, coords[index]? = some c ∧
          candidateWidth - MIN_GAP ≤ c := by
  unfold is_child_reached
  rw [List.any_eq_true]
  constructor
  · rintro ⟨⟨i, o⟩, hmem, hp⟩
    rw [List.mem_enum_iff_getElem?] at hmem
    refine ⟨i, o, hmem, ?_⟩
    by_cases hc : o.children
    · refine ⟨hc, ?_⟩
      simp only [hc, Bool.not_true, Bool.false_eq_true, if_false] at hp
      unfold coord_ge at hp
      rcases hcoord : coords[i]? with _ | c
      · rw [hcoord] at hp
        simp at hp
      · rw [hcoord] at hp
        simp only [decide_eq_true_eq] at hp
        exact ⟨c, rfl, hp⟩
    · simp only [Bool.not_eq_true] at hc
      simp [hc] at hp
  · rintro ⟨i, o, hopt, hc, c, hcoord, hle⟩
    refine ⟨(i, o), ?_, ?_⟩
    · rw [List.mem_enum_iff_getElem?]
      exact hopt
    · simp only [hc, Bool.not_true, Bool.false_eq_true, if_false]
      unfold coord_ge
      rw [hcoord]
      simpa using hle

/-- Claim C4: the geometry capture produces one offset per rendered
element, aligned 1:1 with input order, each equal to
(x + width) - first element x + MIN_GAP. -/
theorem client_rects_end_point_spec (MIN_GAP : ℚ) (elems : List Rect)
    (h : elems ≠ []) :
    (client_rects_end_point MIN_GAP (some elems)).length = elems.length ∧
    ∀ (index : ℕ) (rect : Rect), elems[index]? = some rect →
      (client_rects_end_point MIN_GAP (some elems))[index]? =
        some (rect.x + rect.width - (elems.head h).x + MIN_GAP) := by
  simp only [client_rects_end_point]
  rw [List.head?_eq_head h]
  constructor
  · exact List.length_map _ _
  · intro index rect hrect
    rw [List.getElem?_map, hrect]
    rfl

/-- Claim C5: after a first capture that leaves the cache non-empty,
running the layout effect again (with any rendered geometry) is a no-op:
the cache is written only while empty. -/
theorem capture_offsets_idempotent (MIN_GAP : ℚ)
    (ref1 ref2 : Option (List Rect)) (st : FitterState)
    (h : (capture_offsets MIN_GAP ref1 st).coords ≠ []) :
    capture_offsets MIN_GAP ref2 (capture_offsets MIN_GAP ref1 st) =
      capture_offsets MIN_GAP ref1 st := by
  rw [capture_offsets]
  rw [if_neg]
  intro hlen
  exact h (List.length_eq_zero.mp hlen)

/-- Claim C6: an empty offset cache makes `is_child_reached` false for
any options and width, and any absent cache entry compares as not
overflowed instead of raising. -/
theorem absent_cache_entries_not_overflowed :
    (∀ (MIN_GAP candidateWidth : ℚ) (options : List BulkActionOption),
      is_child_reached MIN_GAP options [] candidateWidth = false) ∧
    (∀ (coords : List ℚ) (index : ℕ) (bound : ℚ),
      coords.length ≤ index → coord_ge coords index bound = false) := by
  constructor
  · intro MIN_GAP candidateWidth options
    unfold is_child_reached
    rw [List.any_eq_false]
    intro p _
    by_cases hc : p.2.children <;> simp [hc, coord_ge]
  · intro coords index bound hlen
    unfold coord_ge
    rw [List.getElem?_eq_none hlen]

/-- Claim C7: when MAX_OPTIONS_TO_DISPLAY <= 0 the validation pass logs
a warning, and every fit pass either retains the previous state
unchanged (child-overflow early exit, publishing nothing) or publishes
an empty subset, regardless of how many offsets fit. -/
theorem nonpositive_max_warns_and_caps_zero
    (MIN_GAP : ℚ) (MAX : ℤ) (cell : CoordsCell)
    (options : List BulkActionOption) (wrapper_ref : Option ℚ)
    (toolbar_options_ref : Option (List Rect))
    (h : MAX ≤ 0) :
    (∃ e ∈ (run_validations cell MAX options wrapper_ref
        toolbar_options_ref).1,
      e.level = LogLevel.warn ∧
      e.message =
        "Warning: MAX_OPTIONS_TO_DISPLAY should be greater than 0.") ∧
    ∀ (availableWidth : ℚ) (st : FitterState),
      update_with_width MIN_GAP MAX options availableWidth st = st ∨
      (update_with_width MIN_GAP MAX options availableWidth st).visible
        = [] := by
  constructor
  · refine ⟨⟨LogLevel.warn,
      "Warning: MAX_OPTIONS_TO_DISPLAY should be greater than 0."⟩,
      ?_, rfl, rfl⟩
    simp [run_validations, h]
  · intro availableWidth st
    by_cases hc : is_child_reached MIN_GAP options st.coords availableWidth
    · left
      unfold update_with_width
      rw [if_pos hc]
    · right
      unfold update_with_width
      rw [if_neg hc]
      simp only [select_loop_eq]
      have : MAX.toNat = 0 := Int.toNat_of_nonpos h
      simp [this]

/-- Claim C8: a non-array coordinate cache is reset to the empty
sequence with an error log by the validation pass, and the fit pass then
proceeds against the coerced empty cache. -/
theorem coords_not_array_reset
    (MIN_GAP : ℚ) (MAX : ℤ) (options prev_visible : List BulkActionOption)
    (window_innerWidth : ℚ) (wrapper_ref : Option ℚ)
    (toolbar_options_ref : Option (List Rect)) :
    (run_validations CoordsCell.notArray MAX options wrapper_ref
      toolbar_options_ref).2 = [] ∧
    (∃ e ∈ (run_validations CoordsCell.notArray MAX options wrapper_ref
        toolbar_options_ref).1,
      e.level = LogLevel.error ∧
      e.message =
        "Error: toolbar_options_x_coordinates_ref.current is not initialized as an array.") ∧
    (fit_pass MIN_GAP MAX options CoordsCell.notArray prev_visible
        window_innerWidth wrapper_ref toolbar_options_ref).2 =
      (fit_pass MIN_GAP MAX options (CoordsCell.array []) prev_visible
        window_innerWidth wrapper_ref toolbar_options_ref).2 := by
  refine ⟨rfl, ?_, rfl⟩
  refine ⟨⟨LogLevel.error,
    "Error: toolbar_options_x_coordinates_ref.current is not initialized as an array."⟩,
    ?_, rfl, rfl⟩
  simp [run_validations]

/-- Concrete instantiation of the C1 theorem. -/
theorem update_visible_fitting_prefix_spec_witness :
    (update_with_width 10 10 [⟨"a", false⟩, ⟨"b", false⟩, ⟨"c", false⟩]
      250 ⟨[50, 120, 200, 300], []⟩).visible <+:
      [⟨"a", false⟩, ⟨"b", false⟩, ⟨"c", false⟩] ∧
    (((update_with_width 10 10 [⟨"a", false⟩, ⟨"b", false⟩, ⟨"c", false⟩]
        250 ⟨[50, 120, 200, 300], []⟩).visible.length : ℤ) =
      min 10 (min (([⟨"a", false⟩, ⟨"b", false⟩, ⟨"c", false⟩]
          : List BulkActionOption).length : ℤ)
        ((([50, 120, 200, 300] : List ℚ).filter fun x =>
          x ≤ 250 - 10).length : ℤ))) :=
  update_visible_fitting_prefix_spec 10 10
    [⟨"a", false⟩, ⟨"b", false⟩, ⟨"c", false⟩] 250
    ⟨[50, 120, 200, 300], []⟩ (by norm_num) (by decide) (by decide)

/-- Concrete instantiation of the C2 theorem. -/
theorem child_overflow_retains_previous_state_witness :
    update_display_options_on_window_resize 10 3
      [⟨"a", false⟩, ⟨"b", false⟩, ⟨"c", true⟩] 500 (some 205)
      ⟨[50, 120, 200], [⟨"a", false⟩]⟩ =
      ⟨[50, 120, 200], [⟨"a", false⟩]⟩ :=
  child_overflow_retains_previous_state 10 3
    [⟨"a", false⟩, ⟨"b", false⟩, ⟨"c", true⟩] 500 (some 205)
    ⟨[50, 120, 200], [⟨"a", false⟩]⟩ (by
      unfold is_child_reached coord_ge resolve_wrapper_width
      rw [List.any_eq_true]
      refine ⟨(2, ⟨"c", true⟩), by decide, ?_⟩
      show decide ((205 : ℚ) - 10 ≤ 200) = true
      rw [decide_eq_true_eq]
      norm_num)

/-- Concrete instantiation of the C3 theorem. -/
theorem is_child_reached_iff_witness :
    ∃ (index : ℕ) (o : BulkActionOption),
      ([⟨"a", false⟩, ⟨"b", false⟩, ⟨"c", true⟩]
        : List BulkActionOption)[index]? = some o ∧
      o.children = true ∧
      ∃ c : ℚ, ([50, 120, 200] : List ℚ)[index]? = some c ∧
        (205 : ℚ) - 10 ≤ c :=
  (is_child_reached_iff 10 205 [⟨"a", false⟩, ⟨"b", false⟩, ⟨"c", true⟩]
    [50, 120, 200]).mp (by
      unfold is_child_reached coord_ge
      rw [List.any_eq_true]
      refine ⟨(2, ⟨"c", true⟩), by decide, ?_⟩
      show decide ((205 : ℚ) - 10 ≤ 200) = true
      rw [decide_eq_true_eq]
      norm_num)

/-- Concrete instantiation of the C4 theorem. -/
theorem client_rects_end_point_spec_witness :
    (client_rects_end_point 10 (some [⟨5, 20⟩, ⟨30, 40⟩])).length =
      ([⟨5, 20⟩, ⟨30, 40⟩] : List Rect).length ∧
    ∀ (index : ℕ) (rect : Rect),
      ([⟨5, 20⟩, ⟨30, 40⟩] : List Rect)[index]? = some rect →
      (client_rects_end_point 10 (some [⟨5, 20⟩, ⟨30, 40⟩]))[index]? =
        some (rect.x + rect.width -
          (([⟨5, 20⟩, ⟨30, 40⟩] : List Rect).head
            (List.cons_ne_nil _ _)).x + 10) :=
  client_rects_end_point_spec 10 [⟨5, 20⟩, ⟨30, 40⟩]
    (List.cons_ne_nil _ _)

/-- Concrete instantiation of the C5 theorem. -/
theorem capture_offsets_idempotent_witness :
    capture_offsets 10 (some [⟨0, 30⟩])
      (capture_offsets 10 (some [⟨0, 20⟩]) ⟨[], []⟩) =
      capture_offsets 10 (some [⟨0, 20⟩]) ⟨[], []⟩ :=
  capture_offsets_idempotent 10 (some [⟨0, 20⟩]) (some [⟨0, 30⟩])
    ⟨[], []⟩ (by simp [capture_offsets, client_rects_end_point])

/-- Concrete instantiation of the C6 theorem. -/
theorem absent_cache_entries_not_overflowed_witness :
    is_child_reached 10 [⟨"a", true⟩] [] 100 = false ∧
    coord_ge [] 0 5 = false :=
  ⟨absent_cache_entries_not_overflowed.1 10 100 [⟨"a", true⟩],
   absent_cache_entries_not_overflowed.2 [] 0 5 (by decide)⟩

/-- Concrete instantiation of the C7 theorem. -/
theorem nonpositive_max_warns_and_caps_zero_witness :
    (∃ e ∈ (run_validations (CoordsCell.array [50]) 0 [⟨"a", false⟩]
        none none).1,
      e.level = LogLevel.warn ∧
      e.message =
        "Warning: MAX_OPTIONS_TO_DISPLAY should be greater than 0.") ∧
    (update_with_width 10 0 [⟨"a", false⟩] 100 ⟨[50], []⟩ = ⟨[50], []⟩ ∨
      (update_with_width 10 0 [⟨"a", false⟩] 100 ⟨[50], []⟩).visible
        = []) :=
  ⟨(nonpositive_max_warns_and_caps_zero 10 0 (CoordsCell.array [50])
      [⟨"a", false⟩] none none (by decide)).1,
   (nonpositive_max_warns_and_caps_zero 10 0 (CoordsCell.array [50])
      [⟨"a", false⟩] none none (by decide)).2 100 ⟨[50], []⟩⟩
